import Mathlib

/-!
CSV maximum scan (`introduction_to_go/exercises/template1/template1.go`)

A shallow embedding of the program `main` of `template1.go`: it opens a CSV
file, reads all records, scans field 0 of every record with `strconv.Atoi`
and prints the running maximum.

* Go `string` values are Lean `String`s; the library routines that walk a
  string byte by byte work on its UTF-8 bytes (`bytes`).
* Go `int` is taken 64 bits wide (`intSize`); `uint64` arithmetic is done on
  `Nat` with an explicit `% 2 ^ 64`.
* `strconv.Atoi`, `strconv.ParseInt` and `strconv.ParseUint` belong to the Go
  standard library. They are embedded here, specialised to the only call the
  program makes (`base = 10`, `bitSize = 0`), because the loop of `main` uses
  the integer `Atoi` returns together with its error.
* `os.Open` and `csv.Reader.ReadAll` are the environment: each returns either
  a value or an error (`World`).
-/

namespace Template1

/-! ## `strconv` -/

/-- The two errors `strconv` reports for a base-10 parse: `ErrSyntax` and `ErrRange`. -/
inductive NumError where
  | ErrSyntax
  | ErrRange
  deriving DecidableEq, Repr

/-- Width of Go's `int` (`strconv.IntSize`) on a 64-bit platform. -/
def intSize : Nat := 64

/-- Largest `uint64`: `1<<64 - 1`. -/
def maxUint64 : Nat := 2 ^ 64 - 1

/-- The bytes of a Go string (its UTF-8 encoding), each as a number below 256. -/
def bytes (s : String) : List Nat := s.toUTF8.data.toList.map UInt8.toNat

/-- Go's `lower(c)`, that is `c | ('x' - 'X')`. -/
def lower (c : Nat) : Nat := c ||| 0x20

/-- The loop of `strconv.ParseUint` for `base = 10`, `bitSize = 0` (so
`maxVal = 1<<64 - 1` and `cutoff = maxUint64/10 + 1`), started with the value
`n` accumulated so far. A byte that is no digit of the base is a syntax
error with value 0; an overflow is a range error with value `maxVal`. -/
def parseUintLoop : Nat → List Nat → Nat × Option NumError
  | n, [] => (n, none)
  | n, c :: cs =>
    let base : Nat := 10
    let cutoff : Nat := maxUint64 / 10 + 1
    let maxVal : Nat := (2 ^ intSize - 1) % 2 ^ 64
    let digit : Option Nat :=
      if 48 ≤ c ∧ c ≤ 57 then some (c - 48)
      else if 97 ≤ lower c ∧ lower c ≤ 122 then some (lower c - 97 + 10)
      else none
    match digit with
    | none => (0, some NumError.ErrSyntax)
    | some d =>
      if d ≥ base then (0, some NumError.ErrSyntax)
      else if n ≥ cutoff then (maxVal, some NumError.ErrRange)
      else
        let n0 := (n * base) % 2 ^ 64
        let n1 := (n0 + d) % 2 ^ 64
        if n1 < n0 ∨ n1 > maxVal then (maxVal, some NumError.ErrRange)
        else parseUintLoop n1 cs

/-- Go's `strconv.ParseUint(s, 10, 0)` on the bytes of `s`. -/
def ParseUint (s : List Nat) : Nat × Option NumError :=
  match s with
  | [] => (0, some NumError.ErrSyntax)
  | _ :: _ => parseUintLoop 0 s

/-- Go's `strconv.ParseInt(s, 10, 0)` on the bytes of `s`: pick off a leading
sign, convert the rest unsigned, then check the range of `int`. A syntax error
comes with value 0, a range error with the nearest bound of `int`. -/
def ParseInt (s : List Nat) : Int × Option NumError :=
  match s with
  | [] => (0, some NumError.ErrSyntax)
  | c :: rest =>
    let neg : Bool := c = 45
    let s1 : List Nat := if c = 43 then rest else if c = 45 then rest else s
    match ParseUint s1 with
    | (_, some NumError.ErrSyntax) => (0, some NumError.ErrSyntax)
    | (un, _) =>
      let cutoff : Nat := 2 ^ (intSize - 1)
      if ¬ neg ∧ un ≥ cutoff then ((cutoff : Int) - 1, some NumError.ErrRange)
      else if neg ∧ un > cutoff then (-(cutoff : Int), some NumError.ErrRange)
      else (if neg then -(un : Int) else (un : Int), none)

/-- The digit loop of the fast path of `strconv.Atoi`: `none` when a byte is
not a decimal digit (`ch -= '0'` is byte arithmetic, then `ch > 9`). -/
def atoiFastLoop : Int → List Nat → Option Int
  | n, [] => some n
  | n, ch :: rest =>
    let ch0 := (ch + 256 - 48) % 256
    if ch0 > 9 then none else atoiFastLoop (n * 10 + (ch0 : Int)) rest

/-- Go's `strconv.Atoi`: the pair `(value, error)` it returns, with `none` for
a nil error. Short strings take the fast path, the others go through
`ParseInt(s, 10, 0)`, whose value is returned alongside its error. -/
def Atoi (str : String) : Int × Option NumError :=
  let s0 := bytes str
  let sLen := s0.length
  if (intSize = 32 ∧ 0 < sLen ∧ sLen < 10) ∨ (intSize = 64 ∧ 0 < sLen ∧ sLen < 19) then
    let signed : Bool := s0.head? = some 45 ∨ s0.head? = some 43
    let s := if signed then s0.drop 1 else s0
    if signed ∧ s.length < 1 then (0, some NumError.ErrSyntax)
    else
      match atoiFastLoop 0 s with
      | none => (0, some NumError.ErrSyntax)
      | some n => (if s0.head? = some 45 then -n else n, none)
  else ParseInt s0

/-! ## The scan of `main` -/

/-- A run-time panic of the Go program: `record[0]` on a record without fields. -/
inductive RuntimePanic where
  | indexOutOfRange
  deriving DecidableEq, Repr

deriving instance DecidableEq for Except

/-- One iteration of the `for _, record := range records` loop of `main`, from
the running maximum `intMax`: `record[0]` panics on a record without fields;
the body of `if err != nil` is empty, so `intVal` is compared whether or not
`Atoi` reported an error. -/
def iteration (intMax : Int) (record : List String) : Except RuntimePanic Int :=
  match record with
  | [] => Except.error RuntimePanic.indexOutOfRange
  | field0 :: _ =>
    let (intVal, _err) := Atoi field0
    if intVal > intMax then Except.ok intVal else Except.ok intMax

/-- The whole `range` loop of `main` started with running maximum `intMax`. -/
def rangeLoop : Int → List (List String) → Except RuntimePanic Int
  | intMax, [] => Except.ok intMax
  | intMax, record :: rest =>
    match iteration intMax record with
    | Except.error p => Except.error p
    | Except.ok intMax1 => rangeLoop intMax1 rest

/-- The scan of `main`: `var intMax int` (zero) followed by the loop. -/
def scan (records : List (List String)) : Except RuntimePanic Int :=
  rangeLoop 0 records

/-! ## The program -/

/-- The environment of `main`: `os.Open` on a path gives a file or an error,
`csv.Reader.ReadAll` on a file gives the records or an error. -/
structure World where
  osOpen : String → Except String Nat
  readAll : Nat → Except String (List (List String))

/-- What a run of the process leaves behind: the lines written to standard
output, those written to standard error, and the exit status. -/
structure Process where
  stdout : List String
  stderr : List String
  exitStatus : Nat
  deriving DecidableEq, Repr

/-- Go's `log.Fatal(err)`: the message goes to standard error (the time stamp
is left out) and the process exits with status 1. -/
def logFatal (err : String) : Process :=
  Process.mk [] [err] 1

/-- The path `main` opens. -/
def csvPath : String := "../../data/example_messy.csv"

/-- The program `main` of `template1.go` run in the world `w`: a failed
`os.Open` or `ReadAll` ends in `log.Fatal`; a panic of the scan writes to
standard error and exits with status 2; otherwise `fmt.Println(intMax)` writes
one line, the decimal form of `intMax`, to standard output. -/
def main (w : World) : Process :=
  match w.osOpen csvPath with
  | Except.error err => logFatal err
  | Except.ok f =>
    match w.readAll f with
    | Except.error err => logFatal err
    | Except.ok records =>
      match scan records with
      | Except.error _ =>
        Process.mk [] ["panic: runtime error: index out of range [0] with length 0"] 2
      | Except.ok intMax =>
        Process.mk [toString intMax] [] 0

/-- A world in which the file cannot be opened. -/
def missingFileWorld : World :=
  World.mk (fun _ => Except.error "open ../../data/example_messy.csv: no such file or directory")
    (fun _ => Except.ok [])

/-- A world in which the file opens and `ReadAll` fails. -/
def malformedCsvWorld : World :=
  World.mk (fun _ => Except.ok 3)
    (fun _ => Except.error "record on line 2: wrong number of fields")

/-- A world in which the file opens and holds the rows 3, 7 and 2. -/
def exampleWorld : World :=
  World.mk (fun _ => Except.ok 3) (fun _ => Except.ok [["3"], ["7"], ["2"]])

/-! ## The claims as the specification words them -/

/-- The integers `strconv.Atoi` successfully parses (nil error) from field 0
of the records, in order. -/
def validValues (records : List (List String)) : List Int :=
  records.filterMap fun record =>
    match record with
    | [] => none
    | field0 :: _ => if (Atoi field0).2 = none then some (Atoi field0).1 else none

/-- The result the specification promises: the maximum of the successfully
parsed integers, or 0 when no record parses successfully. -/
def claimedResult (records : List (List String)) : Int :=
  match (validValues records).max? with
  | some m => m
  | none => 0

/-- The records left when every record whose field 0 fails `strconv.Atoi` is
removed (a record without fields has no field 0 and is kept). -/
def dropMalformed (records : List (List String)) : List (List String) :=
  records.filter fun record =>
    match record with
    | [] => true
    | field0 :: _ => decide ((Atoi field0).2 = none)

/-! ## Basic facts about the loop -/

theorem iteration_cons (intMax : Int) (field0 : String) (fields : List String) :
    iteration intMax (field0 :: fields) = Except.ok (max intMax (Atoi field0).1) := by
  unfold iteration
  by_cases h : (Atoi field0).1 > intMax
  · simp only [h, if_true, max_eq_right (le_of_lt h)]
  · simp only [h, if_false, max_eq_left (not_lt.mp h)]

theorem rangeLoop_nil_cons (intMax : Int) (rest : List (List String)) :
    rangeLoop intMax ([] :: rest) = Except.error RuntimePanic.indexOutOfRange := by
  simp [rangeLoop, iteration]

theorem rangeLoop_cons_cons (intMax : Int) (field0 : String) (fields : List String)
    (rest : List (List String)) :
    rangeLoop intMax ((field0 :: fields) :: rest)
      = rangeLoop (max intMax (Atoi field0).1) rest := by
  rw [rangeLoop, iteration_cons]

theorem rangeLoop_append (front back : List (List String)) :
    ∀ intMax v, rangeLoop intMax front = Except.ok v →
      rangeLoop intMax (front ++ back) = rangeLoop v back := by
  induction front with
  | nil =>
    intro m v h
    simp only [rangeLoop, Except.ok.injEq] at h
    rw [List.nil_append, h]
  | cons r rest ih =>
    intro m v h
    cases r with
    | nil => rw [rangeLoop_nil_cons] at h; cases h
    | cons s t =>
      rw [rangeLoop_cons_cons] at h
      rw [List.cons_append, rangeLoop_cons_cons]
      exact ih _ _ h

theorem rangeLoop_total (records : List (List String)) (hne : ∀ r ∈ records, r ≠ []) :
    ∀ intMax, ∃ v, rangeLoop intMax records = Except.ok v := by
  induction records with
  | nil => intro m; exact ⟨m, rfl⟩
  | cons r rest ih =>
    intro m
    cases r with
    | nil => exact absurd rfl (hne [] (List.mem_cons_self _ _))
    | cons s t =>
      rw [rangeLoop_cons_cons]
      exact ih (fun r hr => hne r (List.mem_cons_of_mem _ hr)) _

theorem rangeLoop_ge (records : List (List String)) :
    ∀ intMax v, rangeLoop intMax records = Except.ok v →
      intMax ≤ v ∧ ∀ r ∈ records, ∀ s ∈ r.head?, (Atoi s).1 ≤ v := by
  induction records with
  | nil =>
    intro m v h
    simp only [rangeLoop, Except.ok.injEq] at h
    exact ⟨le_of_eq h, fun r hr => absurd hr (List.not_mem_nil r)⟩
  | cons r rest ih =>
    intro m v h
    cases r with
    | nil => rw [rangeLoop_nil_cons] at h; cases h
    | cons s t =>
      rw [rangeLoop_cons_cons] at h
      obtain ⟨h1, h2⟩ := ih _ _ h
      refine ⟨le_trans (le_max_left _ _) h1, ?_⟩
      intro r hr s1 hs1
      rcases List.mem_cons.mp hr with heq | hmem
      · rw [heq, List.head?_cons, Option.mem_def, Option.some.injEq] at hs1
        rw [← hs1]
        exact le_trans (le_max_right _ _) h1
      · exact h2 r hmem s1 hs1

theorem rangeLoop_mem (records : List (List String)) :
    ∀ intMax v, rangeLoop intMax records = Except.ok v →
      v = intMax ∨ ∃ r ∈ records, ∃ s ∈ r.head?, v = (Atoi s).1 := by
  induction records with
  | nil =>
    intro m v h
    simp only [rangeLoop, Except.ok.injEq] at h
    exact Or.inl h.symm
  | cons r rest ih =>
    intro m v h
    cases r with
    | nil => rw [rangeLoop_nil_cons] at h; cases h
    | cons s t =>
      rw [rangeLoop_cons_cons] at h
      rcases ih _ _ h with h1 | ⟨r, hr, s1, hs1, hv⟩
      · rcases max_choice m (Atoi s).1 with hm | hm
        · exact Or.inl (h1.trans hm)
        · exact Or.inr ⟨s :: t, List.mem_cons_self _ _, s, rfl, h1.trans hm⟩
      · exact Or.inr ⟨r, List.mem_cons_of_mem _ hr, s1, hs1, hv⟩

theorem rangeLoop_panics (records : List (List String)) (hmem : [] ∈ records) :
    ∀ intMax, rangeLoop intMax records = Except.error RuntimePanic.indexOutOfRange := by
  induction records with
  | nil => exact absurd hmem (List.not_mem_nil _)
  | cons r rest ih =>
    intro m
    cases r with
    | nil => exact rangeLoop_nil_cons m rest
    | cons s t =>
      rw [rangeLoop_cons_cons]
      rcases List.mem_cons.mp hmem with heq | h
      · cases heq
      · exact ih h _

theorem rangeLoop_perm {records permuted : List (List String)} (hperm : records.Perm permuted) :
    ∀ intMax, rangeLoop intMax records = rangeLoop intMax permuted := by
  induction hperm with
  | nil => intro m; rfl
  | cons r _ ih =>
    intro m
    cases r with
    | nil => rw [rangeLoop_nil_cons, rangeLoop_nil_cons]
    | cons s t => rw [rangeLoop_cons_cons, rangeLoop_cons_cons]; exact ih _
  | swap r1 r2 l =>
    intro m
    cases r1 with
    | nil =>
      cases r2 with
      | nil => rfl
      | cons s2 t2 => rw [rangeLoop_cons_cons, rangeLoop_nil_cons, rangeLoop_nil_cons]
    | cons s1 t1 =>
      cases r2 with
      | nil => rw [rangeLoop_nil_cons, rangeLoop_cons_cons, rangeLoop_nil_cons]
      | cons s2 t2 =>
        rw [rangeLoop_cons_cons, rangeLoop_cons_cons, rangeLoop_cons_cons, rangeLoop_cons_cons,
          sup_right_comm]
  | trans _ _ ih1 ih2 => intro m; rw [ih1, ih2]

/-! ## What `Atoi` returns alongside an error -/

theorem Atoi_samples :
    Atoi "7" = (7, none) ∧ Atoi "-5" = (-5, none) ∧ Atoi "+12" = (12, none)
      ∧ Atoi "" = (0, some NumError.ErrSyntax) ∧ Atoi "x" = (0, some NumError.ErrSyntax)
      ∧ Atoi "-" = (0, some NumError.ErrSyntax) ∧ Atoi "1_000" = (0, some NumError.ErrSyntax)
      ∧ Atoi "9223372036854775807" = (9223372036854775807, none)
      ∧ Atoi "9223372036854775808" = (9223372036854775807, some NumError.ErrRange)
      ∧ Atoi "-9223372036854775808" = (-9223372036854775808, none)
      ∧ Atoi "-9223372036854775809" = (-9223372036854775808, some NumError.ErrRange)
      ∧ Atoi "12345678901234567890x" = (0, some NumError.ErrSyntax) := by
  decide

theorem ParseInt_cases (s : List Nat) :
    (ParseInt s).2 = none ∨ ParseInt s = (0, some NumError.ErrSyntax)
      ∨ ParseInt s = (9223372036854775807, some NumError.ErrRange)
      ∨ ParseInt s = (-9223372036854775808, some NumError.ErrRange) := by
  cases s with
  | nil => exact Or.inr (Or.inl rfl)
  | cons c rest =>
    simp only [ParseInt]
    generalize ParseUint (if c = 43 then rest else if c = 45 then rest else c :: rest) = pu
    obtain ⟨un, err⟩ := pu
    cases err with
    | none => dsimp only; split_ifs <;> simp [intSize]
    | some e =>
      cases e with
      | ErrSyntax => exact Or.inr (Or.inl rfl)
      | ErrRange => dsimp only; split_ifs <;> simp [intSize]

theorem Atoi_cases (str : String) :
    (Atoi str).2 = none ∨ Atoi str = (0, some NumError.ErrSyntax)
      ∨ Atoi str = (9223372036854775807, some NumError.ErrRange)
      ∨ Atoi str = (-9223372036854775808, some NumError.ErrRange) := by
  unfold Atoi
  dsimp only
  split_ifs <;>
    first
      | exact ParseInt_cases _
      | exact Or.inr (Or.inl rfl)
      | (generalize atoiFastLoop _ _ = r; cases r <;> simp)

theorem Atoi_error_le (str : String) (herr : (Atoi str).2 ≠ none)
    (hmax : Atoi str ≠ (9223372036854775807, some NumError.ErrRange)) :
    (Atoi str).1 ≤ 0 := by
  rcases Atoi_cases str with h | h | h | h
  · exact absurd h herr
  · rw [h]
  · exact absurd h hmax
  · rw [h]; decide

/-! ## What the loop computes, against the promised maximum -/

theorem claimedResult_nil : claimedResult [] = 0 := rfl

theorem validValues_cons_ok (s : String) (t : List String) (rest : List (List String))
    (hok : (Atoi s).2 = none) :
    validValues ((s :: t) :: rest) = (Atoi s).1 :: validValues rest := by
  simp [validValues, hok]

theorem validValues_cons_err (s : String) (t : List String) (rest : List (List String))
    (herr : (Atoi s).2 ≠ none) :
    validValues ((s :: t) :: rest) = validValues rest := by
  simp [validValues, herr]

theorem max_claimedResult_cons_ok (s : String) (t : List String) (rest : List (List String))
    (hok : (Atoi s).2 = none) (m : Int) (hm : 0 ≤ m) :
    max m (claimedResult ((s :: t) :: rest))
      = max (max m (Atoi s).1) (claimedResult rest) := by
  unfold claimedResult
  rw [validValues_cons_ok s t rest hok, List.max?_cons]
  cases (validValues rest).max? with
  | none =>
    simp only [Option.elim]
    rw [max_eq_left (le_trans hm (le_max_left _ _))]
  | some M =>
    simp only [Option.elim]
    rw [max_assoc]

theorem rangeLoop_eq_max_claimed (records : List (List String))
    (hne : ∀ r ∈ records, r ≠ [])
    (hmax : ∀ r ∈ records, ∀ s ∈ r.head?,
      Atoi s ≠ (9223372036854775807, some NumError.ErrRange)) :
    ∀ intMax, 0 ≤ intMax →
      rangeLoop intMax records = Except.ok (max intMax (claimedResult records)) := by
  induction records with
  | nil =>
    intro m hm
    rw [claimedResult_nil, max_eq_left hm]
    rfl
  | cons r rest ih =>
    intro m hm
    cases r with
    | nil => exact absurd rfl (hne [] (List.mem_cons_self _ _))
    | cons s t =>
      have ih1 := ih (fun r hr => hne r (List.mem_cons_of_mem _ hr))
        (fun r hr => hmax r (List.mem_cons_of_mem _ hr))
      rw [rangeLoop_cons_cons, ih1 _ (le_trans hm (le_max_left _ _))]
      by_cases hok : (Atoi s).2 = none
      · rw [max_claimedResult_cons_ok s t rest hok m hm]
      · have hle : (Atoi s).1 ≤ 0 :=
          Atoi_error_le s hok (hmax (s :: t) (List.mem_cons_self _ _) s rfl)
        rw [max_eq_left (le_trans hle hm)]
        unfold claimedResult
        rw [validValues_cons_err s t rest hok]

/-! ## The claims -/

/-- Claim C1 at its failing input: on column 0 = ["-4", "-1"] both rows parse
successfully and the maximum of the parsed integers is -1, which is what the
claim promises, yet the scan started from the zero `intMax` produces 0. -/
theorem c1_negative_column_gives_zero :
    validValues [["-4"], ["-1"]] = [-4, -1]
      ∧ claimedResult [["-4"], ["-1"]] = -1
      ∧ scan [["-4"], ["-1"]] = Except.ok 0
      ∧ scan [["-4"], ["-1"]] ≠ Except.ok (claimedResult [["-4"], ["-1"]]) := by
  decide

/-- Claim C2 at its failing input: from running maximum 0, the row whose
field 0 is "9223372036854775808" makes `strconv.Atoi` return a range error,
and one iteration of the loop changes the running maximum to
9223372036854775807. -/
theorem c2_range_error_row_updates :
    (Atoi "9223372036854775808").2 = some NumError.ErrRange
      ∧ iteration 0 ["9223372036854775808"] = Except.ok 9223372036854775807 := by
  decide

/-- Claim C3 at its failing input: on column 0 = ["3", "9223372036854775808",
"9"] the scan produces 9223372036854775807, while on the same dataset without
the row `strconv.Atoi` rejects, ["3", "9"], it produces 9. -/
theorem c3_malformed_row_not_transparent :
    dropMalformed [["3"], ["9223372036854775808"], ["9"]] = [["3"], ["9"]]
      ∧ scan [["3"], ["9223372036854775808"], ["9"]] = Except.ok 9223372036854775807
      ∧ scan (dropMalformed [["3"], ["9223372036854775808"], ["9"]]) = Except.ok 9 := by
  decide

/-- Claim C4: for every dataset in which every row has a field 0 that
`strconv.Atoi` parses successfully to a negative integer, the scan produces
0. -/
theorem c4_scan_all_negative (records : List (List String))
    (hne : ∀ r ∈ records, r ≠ [])
    (hneg : ∀ r ∈ records, ∀ s ∈ r.head?, (Atoi s).2 = none ∧ (Atoi s).1 < 0) :
    scan records = Except.ok 0 := by
  unfold scan
  induction records with
  | nil => rfl
  | cons r rest ih =>
    cases r with
    | nil => exact absurd rfl (hne [] (List.mem_cons_self _ _))
    | cons s t =>
      have hs : (Atoi s).1 < 0 := (hneg (s :: t) (List.mem_cons_self _ _) s rfl).2
      rw [rangeLoop_cons_cons, max_eq_left (le_of_lt hs)]
      exact ih (fun r hr => hne r (List.mem_cons_of_mem _ hr))
        (fun r hr => hneg r (List.mem_cons_of_mem _ hr))

/-- Witness of claim C4: column 0 = ["-5", "-2", "-9"] gives 0. -/
theorem c4_scan_all_negative_witness :
    (∀ r ∈ [["-5"], ["-2"], ["-9"]], r ≠ [])
      ∧ (∀ r ∈ [["-5"], ["-2"], ["-9"]], ∀ s ∈ r.head?, (Atoi s).2 = none ∧ (Atoi s).1 < 0)
      ∧ scan [["-5"], ["-2"], ["-9"]] = Except.ok 0 :=
  ⟨by decide, by decide, c4_scan_all_negative [["-5"], ["-2"], ["-9"]] (by decide) (by decide)⟩

/-- Claim C5 at its failing input: in the dataset with the single row
["9223372036854775808"] every row's field 0 makes `strconv.Atoi` return an
error, and the scan produces 9223372036854775807, not 0. -/
theorem c5_all_rows_rejected_nonzero :
    (∀ r ∈ [["9223372036854775808"]], ∀ s ∈ r.head?, (Atoi s).2 ≠ none)
      ∧ scan [["9223372036854775808"]] = Except.ok 9223372036854775807 := by
  decide

/-- Claim C6: for every dataset and every permutation of its rows, the scan
gives the same outcome on both; when every row has at least one field that
outcome is one value, produced on both. -/
theorem c6_scan_perm (records permuted : List (List String))
    (hperm : records.Perm permuted) :
    scan records = scan permuted
      ∧ ((∀ r ∈ records, r ≠ []) →
          ∃ v, scan records = Except.ok v ∧ scan permuted = Except.ok v) := by
  have heq : scan records = scan permuted := rangeLoop_perm hperm 0
  refine ⟨heq, fun hne => ?_⟩
  obtain ⟨v, hv⟩ := rangeLoop_total records hne 0
  exact ⟨v, hv, heq ▸ hv⟩

/-- Witness of claim C6: ["3", "7", "2"] and its permutation ["2", "3", "7"]
both give 7. -/
theorem c6_scan_perm_witness :
    [["3"], ["7"], ["2"]].Perm [["2"], ["3"], ["7"]]
      ∧ scan [["3"], ["7"], ["2"]] = scan [["2"], ["3"], ["7"]]
      ∧ ((∀ r ∈ [["3"], ["7"], ["2"]], r ≠ []) →
          ∃ v, scan [["3"], ["7"], ["2"]] = Except.ok v
            ∧ scan [["2"], ["3"], ["7"]] = Except.ok v) :=
  ⟨by decide, c6_scan_perm [["3"], ["7"], ["2"]] [["2"], ["3"], ["7"]] (by decide)⟩

/-- Claim C7: with `os.Open` and `ReadAll` each returning a value or an
error, when opening fails or `ReadAll` fails `main` ends in `log.Fatal` (exit
status 1) with nothing written to standard output; when both succeed, on
records that all have at least one field, exactly one line is written to
standard output, the decimal form of the value the scan produces. -/
theorem c7_main_output (w : World) :
    (∀ err, w.osOpen csvPath = Except.error err →
        (main w).stdout = [] ∧ (main w).exitStatus = 1)
      ∧ (∀ f err, w.osOpen csvPath = Except.ok f → w.readAll f = Except.error err →
        (main w).stdout = [] ∧ (main w).exitStatus = 1)
      ∧ (∀ f records, w.osOpen csvPath = Except.ok f → w.readAll f = Except.ok records →
        (∀ r ∈ records, r ≠ []) →
        ∃ v, scan records = Except.ok v ∧ (main w).stdout = [toString v]
          ∧ (main w).exitStatus = 0) := by
  refine ⟨?_, ?_, ?_⟩
  · intro err hopen
    simp [main, hopen, logFatal]
  · intro f err hopen hread
    simp [main, hopen, hread, logFatal]
  · intro f records hopen hread hne
    obtain ⟨v, hv⟩ := rangeLoop_total records hne 0
    refine ⟨v, hv, ?_⟩
    have hscan : scan records = Except.ok v := hv
    simp [main, hopen, hread, hscan]

/-- Witness of claim C7: a missing file and a malformed CSV write nothing to
standard output; the rows 3, 7, 2 write the single line 7. -/
theorem c7_main_output_witness :
    ((main missingFileWorld).stdout = [] ∧ (main missingFileWorld).exitStatus = 1)
      ∧ ((main malformedCsvWorld).stdout = [] ∧ (main malformedCsvWorld).exitStatus = 1)
      ∧ (∃ v, scan [["3"], ["7"], ["2"]] = Except.ok v
          ∧ (main exampleWorld).stdout = [toString v] ∧ (main exampleWorld).exitStatus = 0)
      ∧ (main exampleWorld).stdout = ["7"] :=
  ⟨(c7_main_output missingFileWorld).1 _ rfl,
    (c7_main_output malformedCsvWorld).2.1 3 _ rfl rfl,
    (c7_main_output exampleWorld).2.2 3 [["3"], ["7"], ["2"]] rfl rfl (by decide),
    by decide⟩

/-- Claim C8: for every dataset in which every row has at least one field,
`record[0]` is in bounds at every row (the iteration does not panic, whatever
the running maximum) and the scan produces a value; for a dataset containing
a row with zero fields the access is out of bounds and the scan panics. -/
theorem c8_record0_bounds (records : List (List String)) :
    ((∀ r ∈ records, r ≠ []) →
        (∀ r ∈ records, ∀ intMax, ∃ intMax1, iteration intMax r = Except.ok intMax1)
          ∧ ∃ v, scan records = Except.ok v)
      ∧ ([] ∈ records →
        (∀ intMax, iteration intMax [] = Except.error RuntimePanic.indexOutOfRange)
          ∧ scan records = Except.error RuntimePanic.indexOutOfRange) := by
  refine ⟨fun hne => ⟨?_, rangeLoop_total records hne 0⟩,
    fun hmem => ⟨fun _ => rfl, rangeLoop_panics records hmem 0⟩⟩
  intro r hr m
  cases r with
  | nil => exact absurd rfl (hne [] hr)
  | cons s t => exact ⟨_, iteration_cons m s t⟩

/-- Witness of claim C8: the rows [3], [7, a] are scanned to a value; with a
row without fields in between the scan panics. -/
theorem c8_record0_bounds_witness :
    ((∀ r ∈ [["3"], ["7", "a"]], r ≠ [])
        ∧ (∀ r ∈ [["3"], ["7", "a"]], ∀ intMax, ∃ intMax1, iteration intMax r = Except.ok intMax1)
        ∧ ∃ v, scan [["3"], ["7", "a"]] = Except.ok v)
      ∧ ([] ∈ [["3"], [], ["7", "a"]]
        ∧ (∀ intMax, iteration intMax [] = Except.error RuntimePanic.indexOutOfRange)
        ∧ scan [["3"], [], ["7", "a"]] = Except.error RuntimePanic.indexOutOfRange) :=
  ⟨⟨by decide, (c8_record0_bounds [["3"], ["7", "a"]]).1 (by decide)⟩,
    ⟨by decide, (c8_record0_bounds [["3"], [], ["7", "a"]]).2 (by decide)⟩⟩

/-- Claim C9: for every dataset whose rows all have at least one field, the
scan produces a value that is at least 0 and at least every integer that
`strconv.Atoi` successfully parses from field 0 of any row. -/
theorem c9_scan_upper_bound (records : List (List String))
    (hne : ∀ r ∈ records, r ≠ []) :
    ∃ v, scan records = Except.ok v ∧ 0 ≤ v
      ∧ ∀ r ∈ records, ∀ s ∈ r.head?, (Atoi s).2 = none → (Atoi s).1 ≤ v := by
  obtain ⟨v, hv⟩ := rangeLoop_total records hne 0
  obtain ⟨h0, hall⟩ := rangeLoop_ge records 0 v hv
  exact ⟨v, hv, h0, fun r hr s hs _ => hall r hr s hs⟩

/-- Witness of claim C9: on column 0 = ["-5", "x", "4", "-2"] the value
produced bounds 0 and every parsed integer. -/
theorem c9_scan_upper_bound_witness :
    (∀ r ∈ [["-5"], ["x"], ["4"], ["-2"]], r ≠ [])
      ∧ ∃ v, scan [["-5"], ["x"], ["4"], ["-2"]] = Except.ok v ∧ 0 ≤ v
        ∧ ∀ r ∈ [["-5"], ["x"], ["4"], ["-2"]], ∀ s ∈ r.head?,
            (Atoi s).2 = none → (Atoi s).1 ≤ v :=
  ⟨by decide, c9_scan_upper_bound [["-5"], ["x"], ["4"], ["-2"]] (by decide)⟩

/-- Claim C10: for every dataset whose rows all have at least one field, the
value the scan produces is 0 or the integer `strconv.Atoi` returns for field 0
of some row, the integer returned alongside an error included. -/
theorem c10_scan_value_supplied (records : List (List String))
    (hne : ∀ r ∈ records, r ≠ []) :
    ∃ v, scan records = Except.ok v
      ∧ (v = 0 ∨ ∃ r ∈ records, ∃ s ∈ r.head?, v = (Atoi s).1) := by
  obtain ⟨v, hv⟩ := rangeLoop_total records hne 0
  exact ⟨v, hv, rangeLoop_mem records 0 v hv⟩

/-- Witness of claim C10: on column 0 = ["3", "99999999999999999999", "x"] the
value produced is the integer `strconv.Atoi` returns for a row. -/
theorem c10_scan_value_supplied_witness :
    (∀ r ∈ [["3"], ["99999999999999999999"], ["x"]], r ≠ [])
      ∧ ∃ v, scan [["3"], ["99999999999999999999"], ["x"]] = Except.ok v
        ∧ (v = 0 ∨ ∃ r ∈ [["3"], ["99999999999999999999"], ["x"]],
            ∃ s ∈ r.head?, v = (Atoi s).1) :=
  ⟨by decide, c10_scan_value_supplied [["3"], ["99999999999999999999"], ["x"]] (by decide)⟩

end Template1
